import Mathlib

/-!
Shallow embedding of the rustormy weather CLI (provider fallback
orchestration, geocoding cache, location resolution, derived-quantity math)
together with proofs about the claims of its specification.

Conventions of the embedding:
* Rust `f64` values that only feed comparisons and exact record fields
  (coordinates) are modelled as `ℚ`; values that flow through `ln`/rounding
  (the dew-point math) are modelled as `ℝ` with `Real.log`.
* Fallible Rust functions returning `Result` are modelled with `Except`.
* Filesystem state for the geocoding cache is modelled as an association
  list from file path to the stored `Location` (serde round-trips a
  `Location` unchanged, so serialization is the identity in the model).
* Effectful collaborators (HTTP fetches, cache reads in the resolver) are
  passed in as explicit values/functions, so each code path is a pure
  function of its inputs.
-/

namespace Rustormy

/-- Weather provider tags (`src/models.rs` / `src/config/file.rs`).
The configuration code references the full set of services shipped by the
repository; the fallback claims only need distinct tags. -/
inductive Provider where
  | OpenMeteo
  | OpenWeatherMap
  | WorldWeatherOnline
  | WeatherApi
  | WeatherBit
  | TomorrowIo
  | Yr
  deriving DecidableEq, Repr

/-- Unit system (`src/models.rs`). -/
inductive Units where
  | Metric
  | Imperial
  deriving DecidableEq, Repr

/-- Output language (`src/models.rs`). -/
inductive Language where
  | English
  | Russian
  | Spanish
  deriving DecidableEq, Repr

/-- Language code used in cache file names (`Language::code`). -/
def Language.code : Language → String
  | .English => "en"
  | .Russian => "ru"
  | .Spanish => "es"

/-- Output format (`src/models.rs`). -/
inductive OutputFormat where
  | Text
  | Json
  deriving DecidableEq, Repr

/-- Text layout mode (`src/models.rs`). -/
inductive TextMode where
  | Full
  | Compact
  | OneLine
  deriving DecidableEq, Repr

/-- Weather condition icon (`src/models.rs`). -/
inductive WeatherConditionIcon where
  | Unknown
  | Sunny
  | PartlyCloudy
  | Cloudy
  | LightShowers
  | HeavyShowers
  | LightSnow
  | HeavySnow
  | Thunderstorm
  | Fog
  deriving DecidableEq, Repr

/-- Error taxonomy (`src/errors.rs`, plus the payloads used at the
construction sites in `src/config/file.rs` and `src/cache.rs`).
Error sources that Rust wraps (io, serde, toml, reqwest) are carried as
message strings. -/
inductive RustormyError where
  | CliError (msg : String)
  | ConfigNotFound (msg : String)
  | ReadError (msg : String)
  | ConfigParseError (msg : String)
  | ConfigSaveError (msg : String)
  | InvalidCoordinates (lat lon : ℚ)
  | NoLocationProvided
  | MissingApiKey (provider : Provider)
  | InvalidConfiguration (msg : String)
  | HttpRequestFailed (msg : String)
  | CityNotFound (city : String)
  | ApiReturnedError (msg : String)
  | JsonSerializeError (msg : String)
  | CacheFindError (msg : String)
  deriving DecidableEq, Repr

/-- Resolved location (`src/models.rs`). -/
structure Location where
  name : String
  latitude : ℚ
  longitude : ℚ
  deriving DecidableEq, Repr

/-- Per-provider API keys (`src/config/file.rs`). -/
structure ApiKeys where
  open_weather_map : String
  world_weather_online : String
  weather_api : String
  weather_bit : String
  tomorrow_io : String
  open_uv : String
  deriving DecidableEq, Repr

/-- `ApiKeys::default()`: every key empty. -/
def defaultApiKeys : ApiKeys :=
  { open_weather_map := ""
    world_weather_online := ""
    weather_api := ""
    weather_bit := ""
    tomorrow_io := ""
    open_uv := "" }

/-- Output-formatting configuration (`src/config/file.rs`); the
display-only `color_theme` field is omitted (no claim depends on it). -/
structure FormatterConfig where
  output_format : OutputFormat
  text_mode : TextMode
  use_colors : Bool
  show_city_name : Bool
  align_right : Bool
  wind_in_degrees : Bool
  units : Units
  language : Language
  deriving DecidableEq, Repr

/-- `FormatterConfig::default()`. -/
def defaultFormatterConfig : FormatterConfig :=
  { output_format := .Text
    text_mode := .Full
    use_colors := false
    show_city_name := false
    align_right := false
    wind_in_degrees := false
    units := .Metric
    language := .English }

/-- Application configuration (`src/config/file.rs`). -/
structure Config where
  providers : List Provider
  api_keys : ApiKeys
  city : Option String
  lat : Option ℚ
  lon : Option ℚ
  format : FormatterConfig
  live_mode : Bool
  live_mode_interval : ℕ
  use_geocoding_cache : Bool
  verbose : ℕ
  connect_timeout : ℕ
  deriving DecidableEq, Repr

/-- `Config::default()`. -/
def defaultConfig : Config :=
  { providers := [Provider.OpenMeteo]
    api_keys := defaultApiKeys
    city := none
    lat := none
    lon := none
    format := defaultFormatterConfig
    live_mode := false
    live_mode_interval := 300
    use_geocoding_cache := false
    verbose := 0
    connect_timeout := 10 }

/-- `Config::coordinates`: both of lat/lon, or nothing. -/
def Config.coordinates (c : Config) : Option (ℚ × ℚ) :=
  match c.lat, c.lon with
  | some lat, some lon => some (lat, lon)
  | _, _ => none

/-- `Config::location_name`. Rust formats the unwrapped coordinates with
`format!("{}, {}", lat, lon)`; the float-display function is a parameter
`fmtFloat` since no claim depends on the digits it produces. -/
def Config.location_name (c : Config) (fmtFloat : ℚ → String) : String :=
  match c.city with
  | some city => city
  | none => fmtFloat c.lat.get! ++ ", " ++ fmtFloat c.lon.get!

/-- `Config::provider`: pop the first provider from the list to try,
returning the popped tag and the configuration that remains. -/
def Config.provider (c : Config) : Option Provider × Config :=
  match c.providers with
  | [] => (none, c)
  | p :: rest => (some p, { c with providers := rest })

/-- `Config::validate` (`src/config/file.rs`), with the same checks in the
same order, each early-returning its error. -/
def Config.validate (c : Config) : Except RustormyError Unit :=
  if c.city.isNone ∧ (c.lat.isNone ∨ c.lon.isNone) then
    .error RustormyError.NoLocationProvided
  else if c.city.isNone ∧ c.format.show_city_name then
    .error (RustormyError.InvalidConfiguration
      "Cannot show city name when no city is provided")
  else if c.providers.isEmpty then
    .error (RustormyError.InvalidConfiguration
      "At least one provider must be specified")
  else if Provider.OpenWeatherMap ∈ c.providers ∧ c.api_keys.open_weather_map = "" then
    .error (RustormyError.MissingApiKey Provider.OpenWeatherMap)
  else if Provider.WorldWeatherOnline ∈ c.providers ∧ c.api_keys.world_weather_online = "" then
    .error (RustormyError.MissingApiKey Provider.WorldWeatherOnline)
  else if Provider.WeatherApi ∈ c.providers ∧ c.api_keys.weather_api = "" then
    .error (RustormyError.MissingApiKey Provider.WeatherApi)
  else if Provider.WeatherBit ∈ c.providers ∧ c.api_keys.weather_bit = "" then
    .error (RustormyError.MissingApiKey Provider.WeatherBit)
  else if Provider.TomorrowIo ∈ c.providers ∧ c.api_keys.tomorrow_io = "" then
    .error (RustormyError.MissingApiKey Provider.TomorrowIo)
  else
    match c.coordinates with
    | some (lat, lon) =>
      if ¬((-90 ≤ lat ∧ lat ≤ 90) ∧ (-180 ≤ lon ∧ lon ≤ 180)) then
        .error (RustormyError.InvalidCoordinates lat lon)
      else
        .ok ()
    | none => .ok ()

/-- The configuration used by the coordinate-validation claims: the default
configuration with explicit coordinates, exactly like the repository's own
validation tests. -/
def coordTestConfig (lat lon : ℚ) : Config :=
  { defaultConfig with lat := some lat, lon := some lon }

/-! ### Geocoding cache (`src/cache.rs`) -/

/-- Cache directory; `ProjectDirs` lookup is modelled as a fixed root. -/
def get_geocoding_cache_dir : String := "cache"

/-- `city.replace(' ', "_")` from `get_geocoding_cache_path`. -/
def replaceSpaceWithUnderscore (s : String) : String :=
  String.mk (s.data.map (fun c => if c = ' ' then '_' else c))

/-- `get_geocoding_cache_path`: cache file path built from the sanitized
city name and the language code. -/
def get_geocoding_cache_path (city : String) (language : Language) : String :=
  get_geocoding_cache_dir ++ "/geocoding_" ++ replaceSpaceWithUnderscore city
    ++ "_" ++ language.code ++ ".json"

/-- Filesystem state of the cache directory: path to stored `Location`.
A later `cache_location` to the same path shadows the earlier entry,
matching `File::create` truncating the file. -/
def CacheFs : Type := List (String × Location)

/-- `get_cached_location` on an intact cache directory: returns the stored
location when the file for `(city, language)` exists, `none` otherwise. -/
def get_cached_location (fs : CacheFs) (city : String) (language : Language) :
    Option Location :=
  fs.lookup (get_geocoding_cache_path city language)

/-- `cache_location`: write the serialized location to the cache file for
`(city, language)`. -/
def cache_location (fs : CacheFs) (city : String) (language : Language)
    (location : Location) : CacheFs :=
  (get_geocoding_cache_path city language, location) :: fs

/-! ### Location resolution (`src/weather/mod.rs`) -/

/-- `LookUpCity::lookup_city_cached`. The effectful collaborators are
explicit inputs: `cacheRead` is the result of
`crate::cache::get_cached_location(city, lang)`, `live` the result of
`self.lookup_city(client, config)`, and `cacheWrite` the result of
`crate::cache::cache_location(city, lang, &location)`. Each `?` in the
source propagates the error. -/
def lookup_city_cached (city? : Option String) (useCache : Bool)
    (cacheRead : Except RustormyError (Option Location))
    (live : Except RustormyError Location)
    (cacheWrite : Except RustormyError Unit) : Except RustormyError Location := do
  if city?.isNone then
    throw RustormyError.NoLocationProvided
  if useCache then
    let cached ← cacheRead
    if let some loc := cached then
      return loc
  let location ← live
  if useCache then
    let _ ← cacheWrite
  return location

/-- `LookUpCity::get_location`: explicit coordinates take precedence, then a
non-empty city name via the cached lookup (`lookupCached` is the result of
`self.lookup_city_cached(client, config)`), else `NoLocationProvided`. -/
def get_location (c : Config) (fmtFloat : ℚ → String)
    (lookupCached : Except RustormyError Location) : Except RustormyError Location :=
  match c.coordinates, c.city with
  | some (lat, lon), _ =>
    .ok { name := c.location_name fmtFloat, latitude := lat, longitude := lon }
  | none, some city =>
    if ¬city.isEmpty then lookupCached else .error RustormyError.NoLocationProvided
  | none, none => .error RustormyError.NoLocationProvided

/-! ### Canonical weather model and dew point (`src/models.rs`,
`src/weather/tools.rs`) -/

/-- Canonical weather value (`src/models.rs`); float fields are `ℝ`. -/
structure Weather where
  temperature : ℝ
  feels_like : ℝ
  humidity : ℕ
  precipitation : ℝ
  pressure : ℕ
  wind_speed : ℝ
  wind_direction : ℕ
  uv_index : Option ℕ
  description : String
  icon : WeatherConditionIcon
  location_name : String

/-- Rust `f64::round`: nearest integer, halfway cases away from zero. -/
noncomputable def rustRound (x : ℝ) : ℤ :=
  if 0 ≤ x then ⌊x + 1 / 2⌋ else ⌈x - 1 / 2⌉

/-- `(x * 10.0).round() / 10.0`: round to one decimal place. -/
noncomputable def round1 (x : ℝ) : ℝ :=
  (rustRound (x * 10) : ℝ) / 10

/-- `c_to_f` (`src/weather/tools.rs`): `(c * 9.0 / 5.0) + 32.0`. -/
noncomputable def c_to_f (c : ℝ) : ℝ := c * 9 / 5 + 32

/-- `f_to_c` (`src/weather/tools.rs`): `(f - 32.0) * 5.0 / 9.0`. -/
noncomputable def f_to_c (f : ℝ) : ℝ := (f - 32) * 5 / 9

/-- `tools::dew_point` (`src/weather/tools.rs`): Magnus formula with
constants `B = 17.625`, `C = 243.04`; converts an imperial input to Celsius
first and the result back to Fahrenheit before the final rounding. -/
noncomputable def dew_point (t h : ℝ) (units : Units) : ℝ :=
  let t := if units = Units.Imperial then f_to_c t else t
  let gamma := (17.625 * t) / (243.04 + t) + Real.log (h / 100)
  let result := (243.04 * gamma) / (17.625 - gamma)
  let result := if units = Units.Imperial then c_to_f result else result
  round1 result

/-- `Weather::dew_point` (`src/models.rs`): Magnus formula applied directly
to the stored `temperature` field, with no unit handling. -/
noncomputable def Weather.dew_point (w : Weather) : ℝ :=
  let t := w.temperature
  let h : ℝ := (w.humidity : ℝ)
  let gamma := (17.625 * t) / (243.04 + t) + Real.log (h / 100)
  let result := (243.04 * gamma) / (17.625 - gamma)
  round1 result

/-- `Weather::dew_point_f` (`src/models.rs`): the rounded `dew_point`
converted to Fahrenheit. -/
noncomputable def Weather.dew_point_f (w : Weather) : ℝ :=
  c_to_f w.dew_point

/-- Modelled from the spec: the bare Magnus formula in Celsius,
`γ = (17.625·t)/(243.04+t) + ln(h/100)`, `dew = 243.04·γ/(17.625−γ)`,
with no rounding. Used to state the claimed imperial pipeline. -/
noncomputable def magnusDewCelsius (t h : ℝ) : ℝ :=
  let gamma := (17.625 * t) / (243.04 + t) + Real.log (h / 100)
  (243.04 * gamma) / (17.625 - gamma)

/-- Modelled from the spec: the claimed imperial dew-point pipeline —
convert Fahrenheit to Celsius, apply the Magnus formula, convert back to
Fahrenheit, and only then round to one decimal place. -/
noncomputable def specDewPointImperial (t h : ℝ) : ℝ :=
  round1 (c_to_f (magnusDewCelsius (f_to_c t) h))

/-! ### Wind direction arrows (`src/display/formatter.rs`) -/

/-- The 8-symbol arrow table of `wind_deg_to_symbol`. -/
def windSymbols : Fin 8 → String
  | 0 => "↓"
  | 1 => "↙"
  | 2 => "←"
  | 3 => "↖"
  | 4 => "↑"
  | 5 => "↗"
  | 6 => "→"
  | 7 => "↘"

/-- The index computation of `wind_deg_to_symbol`:
`((deg as f32 + 22.5) / 45.0) as usize % 8`. The `as usize` cast truncates
toward zero (the operand is nonnegative, so this is the floor); `f32`
arithmetic on this domain never lands within rounding error of an integer
boundary, so exact rational arithmetic computes the same index. -/
def windIndex (deg : ℕ) : ℕ :=
  (⌊((deg : ℚ) + 22.5) / 45⌋).toNat % 8

/-- `wind_deg_to_symbol` (`src/display/formatter.rs`). -/
def wind_deg_to_symbol (deg : ℕ) : String :=
  windSymbols ⟨windIndex deg, Nat.mod_lt _ (by norm_num)⟩

/-- Modelled from the spec: the claimed index formula
`round((deg + 22.5)/45) mod 8` (rounding to the nearest integer). -/
def claimWindIndex (deg : ℕ) : ℕ :=
  (round (((deg : ℚ) + 22.5) / 45)).toNat % 8

/-- Modelled from the spec: the arrow the claimed formula would select. -/
def claimWindSymbol (deg : ℕ) : String :=
  windSymbols ⟨claimWindIndex deg, Nat.mod_lt _ (by norm_num)⟩

/-! ### Fallback orchestration (`src/app.rs`) -/

/-- The error classification of the `match` in `App::run`: only
`ApiReturnedError` and `HttpRequestFailed` take the fallback branch. -/
def isTransient : RustormyError → Bool
  | .ApiReturnedError _ => true
  | .HttpRequestFailed _ => true
  | _ => false

/-- Observable outcome of one (non-live) pass of `App::run`: either a
weather value is displayed, or `display_error` reports an error and the
process exits. -/
inductive RunResult where
  | success (w : Weather)
  | errorReported (e : RustormyError)

/-- The `App::run` loop, non-live mode. `active` is the currently
instantiated provider adapter, `remaining` the rest of the configured
provider list (consumed front-to-back by `Config::provider`). `fetch`
models `GetWeatherProvider::get_weather`. Returns the list of providers
attempted, in order, and the outcome. On a transient error the next tag is
popped and the loop retries; with the list exhausted, or on any other
error, `display_error` reports the error and stops the process. -/
def runLoop (fetch : Provider → Except RustormyError Weather) :
    Provider → List Provider → List Provider × RunResult
  | active, remaining =>
    match fetch active with
    | .ok w => ([active], .success w)
    | .error e =>
      if isTransient e then
        match remaining with
        | [] => ([active], .errorReported e)
        | p :: tl =>
          let r := runLoop fetch p tl
          (active :: r.1, r.2)
      else
        ([active], .errorReported e)

/-- `App::new` followed by `App::run`: the first tag of the validated
provider list is popped to instantiate the initial adapter
(`config.provider().unwrap_or_default()`), then the run loop consumes the
rest. -/
def runApp (fetch : Provider → Except RustormyError Weather)
    (providers : List Provider) : List Provider × RunResult :=
  match providers with
  | [] => runLoop fetch Provider.OpenMeteo []
  | p :: tl => runLoop fetch p tl

/-! ## Theorems -/

/-- C1: with a validated provider list `[A, B]` whose fetches both fail
with transient errors (`HttpRequestFailed` or `ApiReturnedError`), the run
loop attempts A, then B, then reports B's error and stops: exactly two
attempts, each failure popping one tag from the front of the list. -/
theorem fallback_exhaustion (A B : Provider) (eA eB : RustormyError)
    (fetch : Provider → Except RustormyError Weather)
    (hA : fetch A = .error eA) (hB : fetch B = .error eB)
    (htA : isTransient eA = true) (htB : isTransient eB = true) :
    runApp fetch [A, B] = ([A, B], .errorReported eB) := by
  simp [runApp, runLoop, hA, hB, htA, htB]

/-- Witness for C1 at a concrete fetch behavior: both providers time out. -/
theorem fallback_exhaustion_witness :
    runApp (fun _ => .error (.HttpRequestFailed "connection timed out"))
      [Provider.OpenMeteo, Provider.OpenWeatherMap]
      = ([Provider.OpenMeteo, Provider.OpenWeatherMap],
         .errorReported (.HttpRequestFailed "connection timed out")) :=
  fallback_exhaustion Provider.OpenMeteo Provider.OpenWeatherMap _ _ _ rfl rfl rfl rfl

/-- C2 counterexample: a provider failing with `CityNotFound` does NOT
advance to the next configured provider. `CityNotFound` is not classified
as transient, and with `[OpenMeteo, OpenWeatherMap]` configured only the
first provider is attempted before the error is reported. -/
theorem city_not_found_no_fallback_cex :
    isTransient (RustormyError.CityNotFound "Atlantis") = false
  ∧ runApp (fun _ => .error (.CityNotFound "Atlantis"))
      [Provider.OpenMeteo, Provider.OpenWeatherMap]
      = ([Provider.OpenMeteo], .errorReported (.CityNotFound "Atlantis")) :=
  ⟨rfl, rfl⟩

/-- C2 amended: a `CityNotFound` error is fatal — the run loop reports it
immediately and never attempts any remaining provider; only
`ApiReturnedError` and `HttpRequestFailed` are eligible for fallback. -/
theorem city_not_found_fatal (fetch : Provider → Except RustormyError Weather)
    (A : Provider) (rest : List Provider) (city : String)
    (h : fetch A = .error (.CityNotFound city)) :
    runApp fetch (A :: rest) = ([A], .errorReported (.CityNotFound city)) := by
  simp [runApp, runLoop, h, isTransient]

/-- Witness for the amended C2 at a concrete fetch behavior. -/
theorem city_not_found_fatal_witness :
    runApp (fun _ => .error (.CityNotFound "Nonexistent City"))
      [Provider.OpenMeteo, Provider.OpenWeatherMap]
      = ([Provider.OpenMeteo], .errorReported (.CityNotFound "Nonexistent City")) :=
  city_not_found_fatal _ Provider.OpenMeteo [Provider.OpenWeatherMap]
    "Nonexistent City" rfl

/-- C3 counterexample: with caching enabled, a failing cache read makes
`lookup_city_cached` return the cache error even though the live geocoding
call would have succeeded — it does not fall through to the live call. -/
theorem cache_read_error_propagates_cex :
    lookup_city_cached (some "London") true
      (.error (.ReadError "cache file unreadable"))
      (.ok { name := "London", latitude := 51, longitude := 0 }) (.ok ())
      = .error (.ReadError "cache file unreadable")
  ∧ lookup_city_cached (some "London") true
      (.error (.ReadError "cache file unreadable"))
      (.ok { name := "London", latitude := 51, longitude := 0 }) (.ok ())
      ≠ .ok { name := "London", latitude := 51, longitude := 0 } := by
  refine ⟨rfl, fun h => ?_⟩
  have h2 : (Except.error (RustormyError.ReadError "cache file unreadable")
        : Except RustormyError Location)
      = .ok { name := "London", latitude := 51, longitude := 0 } := h
  exact Except.noConfusion h2

/-- C3 amended: when caching is enabled and the cache read fails, the
resolver returns that cache error to the caller; the live geocoding call
result is never consulted. -/
theorem cache_read_error_returned (city : String) (e : RustormyError)
    (live : Except RustormyError Location)
    (cacheWrite : Except RustormyError Unit) :
    lookup_city_cached (some city) true (.error e) live cacheWrite = .error e :=
  rfl

/-- C6: coordinate validation is boundary-inclusive — `lat=90, lon=180`
passes, and with the same otherwise-valid configuration any coordinate
pair with `lat` outside `[-90, 90]` or `lon` outside `[-180, 180]` fails
with `InvalidCoordinates` carrying that `lat` and `lon`. -/
theorem coordinate_validation_boundary :
    Config.validate (coordTestConfig 90 180) = .ok ()
  ∧ ∀ lat lon : ℚ, ¬((-90 ≤ lat ∧ lat ≤ 90) ∧ (-180 ≤ lon ∧ lon ≤ 180)) →
      Config.validate (coordTestConfig lat lon)
        = .error (RustormyError.InvalidCoordinates lat lon) := by
  constructor
  · rfl
  · intro lat lon h
    have hstep : Config.validate (coordTestConfig lat lon)
        = if ¬((-90 ≤ lat ∧ lat ≤ 90) ∧ (-180 ≤ lon ∧ lon ≤ 180)) then
            .error (RustormyError.InvalidCoordinates lat lon)
          else .ok () := rfl
    rw [hstep, if_pos h]

/-- Witness for C6 at the claim's concrete inputs `lat=90.0001` and
`lon=-180.0001`. -/
theorem coordinate_validation_boundary_witness :
    Config.validate (coordTestConfig 90.0001 0)
      = .error (RustormyError.InvalidCoordinates 90.0001 0)
  ∧ Config.validate (coordTestConfig 0 (-180.0001))
      = .error (RustormyError.InvalidCoordinates 0 (-180.0001)) :=
  ⟨coordinate_validation_boundary.2 90.0001 0 (by norm_num),
   coordinate_validation_boundary.2 0 (-180.0001) (by norm_num)⟩

/-- C7: cache round-trip — after `cache_location city lang loc`, reading
the same `(city, lang)` returns exactly the stored location; in the
spec's scenario (only "Test City"/English cached), a different language
misses and a never-cached city misses. -/
theorem cache_round_trip :
    (∀ (fs : CacheFs) (city : String) (lang : Language) (loc : Location),
        get_cached_location (cache_location fs city lang loc) city lang = some loc)
  ∧ (∀ loc : Location,
        get_cached_location (cache_location [] "Test City" .English loc)
          "Test City" .Spanish = none)
  ∧ (∀ loc : Location,
        get_cached_location (cache_location [] "Test City" .English loc)
          "Nonexistent City" .English = none) := by
  refine ⟨?_, fun loc => rfl, fun loc => rfl⟩
  intro fs city lang loc
  simp [get_cached_location, cache_location, List.lookup]

/-- C9: the cache key is not injective — "Test City" and "Test_City" are
different city names mapping to the same cache path, so a location cached
for "Test City" is returned for a lookup of "Test_City". -/
theorem cache_key_collision :
    "Test City" ≠ "Test_City"
  ∧ get_geocoding_cache_path "Test City" .English
      = get_geocoding_cache_path "Test_City" .English
  ∧ (∀ loc : Location,
      get_cached_location (cache_location [] "Test City" .English loc)
        "Test_City" .English = some loc) :=
  ⟨by decide, rfl, fun loc => rfl⟩

/-- C10: when both explicit coordinates and a city name are configured,
location resolution returns the coordinates without consulting the cached
lookup at all, and the returned name is the configured city name; the
synthesized "lat, lon" name appears only when no city is configured. -/
theorem coordinates_take_precedence :
    (∀ (fmtFloat : ℚ → String) (cityName : String) (lat lon : ℚ)
        (lookupCached : Except RustormyError Location),
        get_location
            { defaultConfig with city := some cityName, lat := some lat, lon := some lon }
            fmtFloat lookupCached
          = .ok { name := cityName, latitude := lat, longitude := lon })
  ∧ (∀ (fmtFloat : ℚ → String) (lat lon : ℚ)
        (lookupCached : Except RustormyError Location),
        get_location { defaultConfig with lat := some lat, lon := some lon }
            fmtFloat lookupCached
          = .ok { name := fmtFloat lat ++ ", " ++ fmtFloat lon,
                  latitude := lat, longitude := lon }) :=
  ⟨fun _ _ _ _ _ => rfl, fun _ _ _ _ => rfl⟩

/-- The truncated index of `wind_deg_to_symbol` agrees with the exact
integer computation `(2·deg + 45) / 90 % 8`. -/
lemma windIndex_eq (deg : ℕ) : windIndex deg = (2 * deg + 45) / 90 % 8 := by
  unfold windIndex
  have h : ((deg : ℚ) + 22.5) / 45 = (((2 * deg + 45 : ℕ) : ℚ)) / ((90 : ℕ) : ℚ) := by
    push_cast
    rw [div_eq_div_iff (by norm_num) (by norm_num)]
    ring_nf
  rw [h, Rat.floor_natCast_div_natCast]
  omega

/-- `wind_deg_to_symbol` restated through the integer index. -/
lemma wind_symbol_eq (deg : ℕ) :
    wind_deg_to_symbol deg
      = windSymbols ⟨(2 * deg + 45) / 90 % 8, Nat.mod_lt _ (by norm_num)⟩ := by
  unfold wind_deg_to_symbol
  congr 1
  exact Fin.ext (windIndex_eq deg)

/-- The claimed round-based index evaluates to 1 at `deg = 22`. -/
lemma claimWindIndex_22 : claimWindIndex 22 = 1 := by
  unfold claimWindIndex
  norm_num [round_eq]

/-- C8 counterexample: at `deg = 22` the formatter picks the north arrow
(truncated index 0), while the claimed formula `round((deg+22.5)/45) mod 8`
gives index 1 (the northeast arrow), so the claimed formula does not
describe the code. -/
theorem wind_round_formula_cex :
    wind_deg_to_symbol 22 = "↓"
  ∧ claimWindSymbol 22 = "↙"
  ∧ wind_deg_to_symbol 22 ≠ claimWindSymbol 22 := by
  have h1 : wind_deg_to_symbol 22 = "↓" := by
    rw [wind_symbol_eq]
    rfl
  have h2 : claimWindSymbol 22 = "↙" := by
    unfold claimWindSymbol
    have hfin : (⟨claimWindIndex 22, Nat.mod_lt _ (by norm_num)⟩ : Fin 8) = 1 := by
      apply Fin.ext
      show claimWindIndex 22 = ((1 : Fin 8) : ℕ)
      rw [claimWindIndex_22]
      rfl
    rw [hfin]
    rfl
  exact ⟨h1, h2, by rw [h1, h2]; decide⟩

/-- C8 amended: the arrow index is the truncation
`⌊(deg+22.5)/45⌋ mod 8` (equivalently `(2·deg+45)/90 mod 8` in integer
arithmetic), so `deg=0` falls in the north sector, `deg=180` in the south
sector, and every one of the 8 sectors is produced by some direction. -/
theorem wind_sector_mapping :
    (∀ deg : ℕ, deg < 360 →
        wind_deg_to_symbol deg
          = windSymbols ⟨(2 * deg + 45) / 90 % 8, Nat.mod_lt _ (by norm_num)⟩)
  ∧ (∀ j : Fin 8, wind_deg_to_symbol (45 * (j : ℕ)) = windSymbols j) := by
  constructor
  · intro deg _
    exact wind_symbol_eq deg
  · intro j
    rw [wind_symbol_eq]
    congr 1
    apply Fin.ext
    show (2 * (45 * (j : ℕ)) + 45) / 90 % 8 = (j : ℕ)
    have hj : (j : ℕ) < 8 := j.isLt
    omega

/-- `rustRound` evaluates on a nonnegative input bracketed around `n`. -/
lemma rustRound_eq (x : ℝ) (n : ℤ) (h0 : 0 ≤ x) (h1 : (n : ℝ) ≤ x + 1/2)
    (h2 : x + 1/2 < n + 1) : rustRound x = n := by
  unfold rustRound
  rw [if_pos h0, Int.floor_eq_iff]
  exact ⟨h1, by linarith⟩

/-- `round1` evaluates once the scaled value is bracketed around `n`. -/
lemma round1_eq (x : ℝ) (n : ℤ) (h0 : 0 ≤ x * 10) (h1 : (n : ℝ) ≤ x * 10 + 1/2)
    (h2 : x * 10 + 1/2 < n + 1) : round1 x = (n : ℝ) / 10 := by
  unfold round1
  rw [rustRound_eq (x * 10) n h0 h1 h2]

/-- Numeric bounds on `ln 0.6`, from the Taylor-series estimate for
`log (1 - x)` at `x = 2/5` with 8 terms. -/
lemma log_three_fifths_bounds :
    -(0.5113 : ℝ) ≤ Real.log (3/5) ∧ Real.log (3/5) ≤ -(0.5103 : ℝ) := by
  have habs : |(2/5 : ℝ)| < 1 := by rw [abs_of_pos] <;> norm_num
  have z := Real.abs_log_sub_add_sum_range_le habs 8
  rw [abs_of_pos (show (0:ℝ) < 2/5 by norm_num)] at z
  simp_rw [Finset.sum_range_succ] at z
  norm_num [Finset.sum_range_zero] at z
  rw [abs_le] at z
  constructor <;> linarith [z.1, z.2]

/-- The Magnus computation at `t = 22.49` (°C), `h = 60` rounds to 14.3. -/
lemma magnus_2249 :
    round1 ((243.04 * ((17.625 * 22.49) / (243.04 + 22.49) + Real.log ((3:ℝ)/5)))
           / (17.625 - ((17.625 * 22.49) / (243.04 + 22.49) + Real.log ((3:ℝ)/5)))) = 14.3 := by
  obtain ⟨hL1, hL2⟩ := log_three_fifths_bounds
  have hc : (17.625 * 22.49 : ℝ) / (243.04 + 22.49) = 317109/212424 := by norm_num
  rw [hc]
  set L := Real.log ((3:ℝ)/5) with hLdef
  have hden : (0:ℝ) < 17.625 - (317109/212424 + L) := by linarith
  have hq : (14.25 : ℝ) ≤ (243.04 * (317109/212424 + L)) / (17.625 - (317109/212424 + L)) := by
    rw [le_div_iff₀ hden]
    linarith
  have hq2 : (243.04 * (317109/212424 + L)) / (17.625 - (317109/212424 + L)) < (14.35 : ℝ) := by
    rw [div_lt_iff₀ hden]
    linarith
  have hr := round1_eq ((243.04 * (317109/212424 + L)) / (17.625 - (317109/212424 + L))) 143
    (by linarith) (by push_cast; linarith) (by push_cast; linarith)
  rw [hr]
  norm_num

/-- C5: at `t = 22.49`, `h = 60`, metric units, both dew-point
implementations return exactly 14.3 — one decimal place, neither 14.34
nor 14.4. -/
theorem dew_point_determinism_2249 :
    dew_point 22.49 60 Units.Metric = 14.3
  ∧ Weather.dew_point
      { temperature := 22.49, feels_like := 21.5, humidity := 60, precipitation := 0.5,
        pressure := 1013, wind_speed := 5, wind_direction := 90, uv_index := none,
        description := "Partly cloudy", icon := .PartlyCloudy, location_name := "Test City" }
      = 14.3 := by
  constructor
  · have step : dew_point 22.49 60 Units.Metric
        = round1 ((243.04 * ((17.625 * 22.49) / (243.04 + 22.49) + Real.log ((60:ℝ)/100)))
                 / (17.625 - ((17.625 * 22.49) / (243.04 + 22.49) + Real.log ((60:ℝ)/100)))) :=
      rfl
    rw [step, show ((60:ℝ)/100) = (3:ℝ)/5 by norm_num]
    exact magnus_2249
  · have step : Weather.dew_point
        { temperature := 22.49, feels_like := 21.5, humidity := 60, precipitation := 0.5,
          pressure := 1013, wind_speed := 5, wind_direction := 90, uv_index := none,
          description := "Partly cloudy", icon := .PartlyCloudy, location_name := "Test City" }
        = round1 ((243.04 * ((17.625 * 22.49) / (243.04 + 22.49) + Real.log (((60:ℕ):ℝ)/100)))
                 / (17.625 - ((17.625 * 22.49) / (243.04 + 22.49) + Real.log (((60:ℕ):ℝ)/100)))) :=
      rfl
    rw [step, show (((60:ℕ):ℝ)/100) = (3:ℝ)/5 by norm_num]
    exact magnus_2249

/-- C4 counterexample: for a `Weather` holding the imperial temperature
32 °F at 100% humidity, `Weather::dew_point_f` returns 89.6 °F, while the
claimed pipeline (convert 32 °F to 0 °C, Magnus, convert back, round)
returns 32 °F — the `Weather` implementation never converts the stored
temperature to Celsius before the formula. -/
theorem dew_point_weather_imperial_cex :
    Weather.dew_point_f
        { temperature := 32, feels_like := 32, humidity := 100, precipitation := 0,
          pressure := 1013, wind_speed := 0, wind_direction := 0, uv_index := none,
          description := "", icon := .Unknown, location_name := "" } = 89.6
  ∧ specDewPointImperial 32 100 = 32
  ∧ (89.6 : ℝ) ≠ 32 := by
  have h32 : round1 (32:ℝ) = ((320:ℤ):ℝ)/10 :=
    round1_eq 32 320 (by norm_num) (by push_cast; norm_num) (by push_cast; norm_num)
  refine ⟨?_, ?_, by norm_num⟩
  · have step : Weather.dew_point_f
        { temperature := 32, feels_like := 32, humidity := 100, precipitation := 0,
          pressure := 1013, wind_speed := 0, wind_direction := 0, uv_index := none,
          description := "", icon := .Unknown, location_name := "" }
        = c_to_f (round1 ((243.04 * ((17.625 * 32) / (243.04 + 32) + Real.log (((100:ℕ):ℝ)/100)))
                 / (17.625 - ((17.625 * 32) / (243.04 + 32) + Real.log (((100:ℕ):ℝ)/100))))) :=
      rfl
    rw [step, show Real.log (((100:ℕ):ℝ)/100) = 0 by norm_num]
    rw [show ((243.04:ℝ) * ((17.625 * 32) / (243.04 + 32) + 0))
          / (17.625 - ((17.625 * 32) / (243.04 + 32) + 0)) = 32 by norm_num]
    rw [h32]
    unfold c_to_f
    norm_num
  · have step : specDewPointImperial 32 100
        = round1 (c_to_f (magnusDewCelsius (f_to_c 32) 100)) := rfl
    have e1 : f_to_c 32 = 0 := by unfold f_to_c; norm_num
    have e2 : magnusDewCelsius 0 100 = 0 := by
      unfold magnusDewCelsius
      norm_num
    have e3 : c_to_f 0 = 32 := by unfold c_to_f; norm_num
    rw [step, e1, e2, e3, h32]
    norm_num

/-- C4 amended: the claimed pipeline (convert Fahrenheit input to Celsius,
apply the Magnus formula, convert back to Fahrenheit, round once at the
end) holds for `tools::dew_point`; the `Weather::dew_point` implementation
instead applies the Magnus formula to the stored temperature unconverted
and rounds in Celsius scale before `dew_point_f` converts to Fahrenheit. -/
theorem dew_point_imperial_pipeline :
    (∀ t h : ℝ, dew_point t h Units.Imperial = specDewPointImperial t h)
  ∧ (∀ w : Weather,
      w.dew_point_f = c_to_f (round1 (magnusDewCelsius w.temperature (w.humidity : ℝ)))) :=
  ⟨fun _ _ => rfl, fun _ => rfl⟩

/-- Witness for the amended C8 at concrete directions: 22° is still the
north sector, 180° (= 45·4) the south sector. -/
theorem wind_sector_mapping_witness :
    wind_deg_to_symbol 22
      = windSymbols ⟨(2 * 22 + 45) / 90 % 8, Nat.mod_lt _ (by norm_num)⟩
  ∧ wind_deg_to_symbol (45 * ((4 : Fin 8) : ℕ)) = windSymbols 4 :=
  ⟨wind_sector_mapping.1 22 (by norm_num), wind_sector_mapping.2 4⟩

end Rustormy
